import Mathlib

/-!
Shallow embedding of the client-side booking scripts
src/main/static/js/booking_create.js and src/main/static/js/book_pitch.js.

DOM state touched by the code is made explicit:
slot cards become a list of records, the message region and the hidden
fields become string fields of a state record, and the innerHTML written to
a price tag is abstracted to its semantic content (which price spans are
rendered, and whether the original is struck through); locale formatting of
the numerals is not modelled.  The single fetch performed by checkVoucher is
modelled by an oracle argument describing the response the server would
return.  Numbers coming from dataset attributes are modelled as Nat
(the pages render integer currency amounts); for integers in this range the
double arithmetic of the scripts is exact, and Math.round of an exact
nonnegative value n/100 equals (n + 50) / 100 in natural division.
-/

/-- Executable model of the JavaScript String.prototype.trim used on the
voucher input values in both scripts: strip leading and trailing
whitespace characters. -/
def jsTrim (s : String) : String :=
  String.mk
    (((s.data.dropWhile Char.isWhitespace).reverse.dropWhile
        Char.isWhitespace).reverse)

namespace BookingCreate

/-- Modelled from the spec: localized "enter a code" prompt.  The constant
TEXT.MSG_ENTER_VOUCHER lives in const.js, which is not among the provided
sources; only its identity as a fixed localized string matters here. -/
def MSG_ENTER_VOUCHER : String := "Vui lòng nhập mã giảm giá"

/-- Modelled from the spec: localized in-progress "checking" message
(TEXT.MSG_VOUCHER_CHECKING from the missing const.js). -/
def MSG_VOUCHER_CHECKING : String := "Đang kiểm tra mã giảm giá"

/-- Modelled from the spec: localized "voucher valid" message prefix
(TEXT.MSG_VOUCHER_VALID from the missing const.js). -/
def MSG_VOUCHER_VALID : String := "Mã giảm giá hợp lệ"

/-- Modelled from the spec: localized generic "invalid voucher" message
(TEXT.MSG_VOUCHER_INVALID from the missing const.js). -/
def MSG_VOUCHER_INVALID : String := "Mã giảm giá không hợp lệ"

/-- Modelled from the spec: localized generic failure message
(TEXT.MSG_VOUCHER_ERROR from the missing const.js). -/
def MSG_VOUCHER_ERROR : String := "Có lỗi xảy ra khi kiểm tra mã giảm giá"

/-- Semantic content of the innerHTML written into a price-tag region:
either the base price alone, or the struck-through original price next to
the discounted price (booking_create.js lines 54-60). -/
inductive PriceTagHTML where
  | baseOnly (base : Nat)
  | discounted (base : Nat) (disc : Nat)
  deriving DecidableEq, Repr

/-- One .time-slot-card as seen by applyDiscountToSlots: its
data-slot-price, its optional data-slot-discounted-price annotation,
whether it contains a .price-tag sub-element, and the rendered content of
that sub-element. -/
structure Slot where
  slotPrice : Nat
  slotDiscountedPrice : Option Nat
  hasPriceTag : Bool
  priceTag : PriceTagHTML
  deriving DecidableEq, Repr

/-- JavaScript truthiness of the discountPercent argument (a number or
null/undefined): null, undefined and 0 are falsy. -/
def jsTruthyNum : Option Nat → Bool
  | none => false
  | some n => n != 0

/-- Math.round(basePrice * (100 - discountPercent) / 100) from
booking_create.js line 52, computed exactly: for n = basePrice * (100 - p)
the double value n / 100 rounds to (n + 50) / 100 in natural division. -/
def discountedPrice (basePrice p : Nat) : Nat :=
  (basePrice * (100 - p) + 50) / 100

/-- Effect of one iteration of the forEach in applyDiscountToSlots
(booking_create.js lines 46-62) on a single card. -/
def applyDiscountToSlot (discountPercent : Option Nat) (slot : Slot) : Slot :=
  if slot.hasPriceTag = false then slot
  else if jsTruthyNum discountPercent then
    let d := discountedPrice slot.slotPrice (discountPercent.getD 0)
    { slot with
      slotDiscountedPrice := some d
      priceTag := PriceTagHTML.discounted slot.slotPrice d }
  else
    { slot with
      slotDiscountedPrice := none
      priceTag := PriceTagHTML.baseOnly slot.slotPrice }

/-- applyDiscountToSlots (booking_create.js lines 45-63): updates every
slot card from its own base price. -/
def applyDiscountToSlots (discountPercent : Option Nat) (slots : List Slot) :
    List Slot :=
  slots.map (applyDiscountToSlot discountPercent)

/-- Body of a successful voucher response, as consumed by checkVoucher:
data.valid, data.discount_percent (absent models undefined) and
data.message (absent models undefined). -/
structure VoucherData where
  valid : Bool
  discount_percent : Option Nat
  message : Option String
  deriving DecidableEq, Repr

/-- Oracle describing how the single fetch of checkVoucher resolves:
either a response with res.ok false and the given numeric status, or an
ok response whose parsed JSON body is the given data. -/
inductive FetchOutcome where
  | httpError (status : Nat)
  | success (data : VoucherData)
  deriving DecidableEq, Repr

/-- The structured record passed to console.error in the catch block of
checkVoucher (booking_create.js lines 104-110).  The context field holds
the numeric HTTP status carried by the thrown VoucherCheckError, or none
when the error carried no context; the timestamp is not modelled. -/
structure LogRecord where
  level : String
  type : String
  message : String
  context : Option Nat
  deriving DecidableEq, Repr

/-- The page state read and written by checkVoucher in booking_create.js:
the voucher input, the bookingDate input (present on the page, line 4, but
never read by checkVoucher), the voucherMessage region, the module-level
currentDiscountPercent, and the slot cards. -/
structure BookingState where
  voucherCodeField : String
  bookingDateField : String
  voucherMessage : String
  currentDiscountPercent : Option Nat
  slots : List Slot
  deriving DecidableEq, Repr

/-- Outcome of one invocation of checkVoucher: the final page state,
whether a fetch was issued, and the structured log record emitted by the
catch block, if any. -/
structure CheckResult where
  state : BookingState
  requestIssued : Bool
  log : Option LogRecord
  deriving DecidableEq, Repr

/-- The message written for a valid voucher (booking_create.js line 91):
the template renders an absent discount_percent as the text undefined. -/
def validMessage (discount_percent : Option Nat) : String :=
  MSG_VOUCHER_VALID ++ " (Giảm " ++
    (match discount_percent with
     | some p => toString p
     | none => "undefined") ++ "%)"

/-- The message written for an invalid voucher (booking_create.js line 95):
data.message || TEXT.MSG_VOUCHER_INVALID, where an empty string is falsy. -/
def invalidMessage (message : Option String) : String :=
  match message with
  | some m => if m = "" then MSG_VOUCHER_INVALID else m
  | none => MSG_VOUCHER_INVALID

/-- checkVoucher (booking_create.js lines 65-114).  The empty-code guard
returns before any fetch; otherwise the in-progress message is shown, the
fetch resolves per the oracle, and either the catch block runs (non-ok
status) or the parsed body is dispatched on data.valid.  Every completing
path overwrites the in-progress message, so only the final message is kept. -/
def checkVoucher (st : BookingState) (fetch : FetchOutcome) : CheckResult :=
  let code := jsTrim st.voucherCodeField
  if code = "" then
    { state := { st with voucherMessage := MSG_ENTER_VOUCHER }
      requestIssued := false
      log := none }
  else
    match fetch with
    | FetchOutcome.httpError status =>
      { state :=
          { st with
            voucherMessage := MSG_VOUCHER_ERROR
            slots := applyDiscountToSlots none st.slots }
        requestIssued := true
        log := some
          { level := "error"
            type := "VoucherCheckError"
            message := "Voucher HTTP error"
            context := some status } }
    | FetchOutcome.success data =>
      if data.valid then
        { state :=
            { st with
              currentDiscountPercent := data.discount_percent
              voucherMessage := validMessage data.discount_percent
              slots := applyDiscountToSlots data.discount_percent st.slots }
          requestIssued := true
          log := none }
      else
        { state :=
            { st with
              currentDiscountPercent := none
              voucherMessage := invalidMessage data.message
              slots := applyDiscountToSlots none st.slots }
          requestIssued := true
          log := none }

/-- One .time-slot-card as seen by selectTimeSlot: its data-available flag
(a dataset string compared against the literal string true), its
data-slot-id, and whether it carries the selected CSS class. -/
structure TimeSlotCard where
  available : String
  slotId : String
  selectedClass : Bool
  deriving DecidableEq, Repr

/-- The page state read and written by selectTimeSlot in
booking_create.js: the card collection, the hidden selectedTimeSlot field
and the submit button (none models an absent button, line 32). -/
structure SlotSelectionState where
  cards : List TimeSlotCard
  selectedTimeSlotValue : String
  submitDisabled : Option Bool
  deriving DecidableEq, Repr

/-- selectTimeSlot (booking_create.js lines 17-35).  The clicked card is
identified by its index in the card collection; none models a null card.
The guard rejects a null card or one whose data-available is not the
string true; otherwise the selected class is cleared everywhere, set on
the clicked card, the hidden field receives the slot id of that card and the
submit button, when present, is enabled. -/
def selectTimeSlot (st : SlotSelectionState)
    (card : Option (Fin st.cards.length)) : SlotSelectionState :=
  match card with
  | none => st
  | some i =>
    if (st.cards.get i).available ≠ "true" then st
    else
      { st with
        cards := st.cards.mapIdx fun j c =>
          { c with selectedClass := decide (j = i.val) }
        selectedTimeSlotValue := (st.cards.get i).slotId
        submitDisabled := st.submitDisabled.map fun _ => false }

end BookingCreate

namespace BookPitch

/-- The DOM inputs read by checkVoucher in book_pitch.js: the voucher
input inside bookingForm and the hiddenBookingDate element, each possibly
absent (querySelector / getElementById may return null), with its value. -/
structure PitchState where
  voucherField : Option String
  hiddenDate : Option String
  deriving DecidableEq, Repr

/-- book_pitch.js line 17: voucherInput ? voucherInput.value.trim() : the
empty string. -/
def readVoucherCode (st : PitchState) : String :=
  match st.voucherField with
  | some v => jsTrim v
  | none => ""

/-- book_pitch.js line 20: hiddenDateInput ? hiddenDateInput.value : the
empty string. -/
def readBookingDate (st : PitchState) : String :=
  match st.hiddenDate with
  | some v => v
  | none => ""

/-- Outcome of one invocation of checkVoucher in book_pitch.js: either an
alert was shown and the function returned, or window.location.href was
assigned, navigating with the given date and code query parameters. -/
inductive PitchResult where
  | alerted (msg : String)
  | navigated (bookingDate : String) (voucherCode : String)
  deriving DecidableEq, Repr

/-- Alert string at book_pitch.js line 23 (a literal in the source). -/
def ALERT_ENTER_VOUCHER : String := "Vui lòng nhập mã giảm giá"

/-- Alert string at book_pitch.js line 29 (a literal in the source). -/
def ALERT_SELECT_DATE : String := "Vui lòng chọn ngày đặt sân trước"

/-- checkVoucher (book_pitch.js lines 15-36): empty trimmed code alerts
and returns; otherwise a missing date alerts and returns; otherwise the
page navigates to the voucher-check URL carrying both parameters. -/
def checkVoucher (st : PitchState) : PitchResult :=
  let voucherCode := readVoucherCode st
  let bookingDate := readBookingDate st
  if voucherCode = "" then PitchResult.alerted ALERT_ENTER_VOUCHER
  else if bookingDate = "" then PitchResult.alerted ALERT_SELECT_DATE
  else PitchResult.navigated bookingDate voucherCode

end BookPitch

/-- Modelled from the spec: standard round-half-up on an exact rational,
the rounding rule the spec documents for the discount computation. -/
def roundHalfUp (q : ℚ) : ℤ := ⌊q + 1 / 2⌋

namespace BookingCreate

/-- A slot card that has a price tag, under a truthy discount percent, is
rewritten to the discounted rendering computed from its own base price. -/
theorem applyDiscountToSlot_truthy (p : Nat) (hp : p ≠ 0) (s : Slot)
    (hs : s.hasPriceTag = true) :
    applyDiscountToSlot (some p) s =
      { s with
        slotDiscountedPrice := some (discountedPrice s.slotPrice p)
        priceTag := PriceTagHTML.discounted s.slotPrice (discountedPrice s.slotPrice p) } := by
  simp [applyDiscountToSlot, hs, jsTruthyNum, hp]

/-- A slot card that has a price tag, under a falsy discount argument
(null, undefined or 0), is reverted to the base-price-only rendering. -/
theorem applyDiscountToSlot_falsy (d : Option Nat) (hd : jsTruthyNum d = false)
    (s : Slot) (hs : s.hasPriceTag = true) :
    applyDiscountToSlot d s =
      { s with
        slotDiscountedPrice := none
        priceTag := PriceTagHTML.baseOnly s.slotPrice } := by
  simp [applyDiscountToSlot, hs, hd]

/-- Updating one card twice with the same discount argument equals
updating it once: the update reads only the base price, which it never
changes. -/
theorem applyDiscountToSlot_idem (d : Option Nat) (s : Slot) :
    applyDiscountToSlot d (applyDiscountToSlot d s) = applyDiscountToSlot d s := by
  unfold applyDiscountToSlot
  by_cases hs : s.hasPriceTag = false
  · simp [hs]
  · by_cases hd : jsTruthyNum d = true
    · simp [hs, hd]
    · simp [hs, hd]

/-- List version of applyDiscountToSlot_truthy over the whole card
collection. -/
theorem applyDiscountToSlots_truthy (p : Nat) (hp : p ≠ 0) (slots : List Slot)
    (htags : ∀ s ∈ slots, s.hasPriceTag = true) :
    applyDiscountToSlots (some p) slots =
      slots.map fun s =>
        { s with
          slotDiscountedPrice := some (discountedPrice s.slotPrice p)
          priceTag := PriceTagHTML.discounted s.slotPrice (discountedPrice s.slotPrice p) } := by
  unfold applyDiscountToSlots
  apply List.map_congr_left
  intro s hs
  exact applyDiscountToSlot_truthy p hp s (htags s hs)

/-- List version of applyDiscountToSlot_falsy over the whole card
collection. -/
theorem applyDiscountToSlots_falsy (d : Option Nat) (hd : jsTruthyNum d = false)
    (slots : List Slot) (htags : ∀ s ∈ slots, s.hasPriceTag = true) :
    applyDiscountToSlots d slots =
      slots.map fun s =>
        { s with
          slotDiscountedPrice := none
          priceTag := PriceTagHTML.baseOnly s.slotPrice } := by
  unfold applyDiscountToSlots
  apply List.map_congr_left
  intro s hs
  exact applyDiscountToSlot_falsy d hd s (htags s hs)

/-- On cards that have price tags, the update depends only on the base
price of the card, not on any previously stored discounted price or
rendering. -/
theorem applyDiscountToSlot_proj (d : Option Nat) (s t : Slot)
    (hprice : s.slotPrice = t.slotPrice)
    (hs : s.hasPriceTag = true) (ht : t.hasPriceTag = true) :
    applyDiscountToSlot d s = applyDiscountToSlot d t := by
  obtain ⟨sp, sd, sh, spt⟩ := s
  obtain ⟨tp, td, th, tpt⟩ := t
  simp only at hprice hs ht
  subst hprice hs ht
  by_cases hd : jsTruthyNum d = true
  · simp [applyDiscountToSlot, hd]
  · simp [applyDiscountToSlot, hd]

/-- Two card collections that agree on base prices and price-tag presence
(all tags present) are mapped to the same result: earlier discounted-price
data never survives a recomputation. -/
theorem applyDiscountToSlots_proj (d : Option Nat) (l1 l2 : List Slot)
    (h : l1.map (fun s => (s.slotPrice, s.hasPriceTag)) =
      l2.map (fun s => (s.slotPrice, s.hasPriceTag)))
    (ht : ∀ s ∈ l2, s.hasPriceTag = true) :
    applyDiscountToSlots d l1 = applyDiscountToSlots d l2 := by
  induction l1 generalizing l2 with
  | nil =>
    cases l2 with
    | nil => rfl
    | cons b t2 => simp at h
  | cons a t1 ih =>
    cases l2 with
    | nil => simp at h
    | cons b t2 =>
      simp only [List.map_cons, List.cons.injEq, Prod.mk.injEq] at h
      obtain ⟨⟨hp, htag⟩, hrest⟩ := h
      have hb : b.hasPriceTag = true := ht b (List.mem_cons_self b t2)
      have ha : a.hasPriceTag = true := by rw [htag]; exact hb
      have hrec := ih t2 hrest (fun s hs => ht s (List.mem_cons_of_mem b hs))
      unfold applyDiscountToSlots at hrec ⊢
      simp only [List.map_cons]
      rw [applyDiscountToSlot_proj d a b hp ha hb, hrec]

/-- After a recomputation over cards that all have price tags, every
stored discounted price comes from the single percent that was applied,
or is absent. -/
theorem applyDiscountToSlots_discountMem (d : Option Nat) (l : List Slot)
    (ht : ∀ s ∈ l, s.hasPriceTag = true) (s : Slot)
    (hs : s ∈ applyDiscountToSlots d l) :
    s.slotDiscountedPrice = none ∨
      ∃ p, d = some p ∧
        s.slotDiscountedPrice = some (discountedPrice s.slotPrice p) := by
  unfold applyDiscountToSlots at hs
  obtain ⟨t, htl, rfl⟩ := List.mem_map.mp hs
  have htag := ht t htl
  match d with
  | none =>
    left
    rw [applyDiscountToSlot_falsy none rfl t htag]
  | some p =>
    by_cases hp : p = 0
    · left
      subst hp
      rw [applyDiscountToSlot_falsy (some 0) rfl t htag]
    · right
      refine ⟨p, rfl, ?_⟩
      rw [applyDiscountToSlot_truthy p hp t htag]

end BookingCreate

/-- C1 counterexample: the checkVoucher of booking_create.js, invoked with
a non-empty trimmed code while the bookingDate field on its page is empty,
issues the network request anyway and shows the generic error message, not
a select-a-date-first prompt.  The claim requires every such invocation to
return with zero requests, so it fails on this variant. -/
theorem C1_counterexample :
    (BookingCreate.checkVoucher
        { voucherCodeField := "ABC", bookingDateField := "", voucherMessage := "",
          currentDiscountPercent := none, slots := [] }
        (BookingCreate.FetchOutcome.httpError 500)).requestIssued = true ∧
    (BookingCreate.checkVoucher
        { voucherCodeField := "ABC", bookingDateField := "", voucherMessage := "",
          currentDiscountPercent := none, slots := [] }
        (BookingCreate.FetchOutcome.httpError 500)).state.voucherMessage ≠
      BookPitch.ALERT_SELECT_DATE := by
  constructor
  · decide
  · decide

/-- C1 (amended): only the checkVoucher of book_pitch.js guards on the
booking date: with a non-empty trimmed code and an empty date it alerts
the select-a-date-first prompt and returns without navigating anywhere,
while the checkVoucher of booking_create.js performs no date check at all
and issues its request whenever the trimmed code is non-empty. -/
theorem C1_date_guard (p : BookPitch.PitchState) (st : BookingCreate.BookingState)
    (f : BookingCreate.FetchOutcome)
    (hp : BookPitch.readVoucherCode p ≠ "")
    (hd : BookPitch.readBookingDate p = "")
    (hc : jsTrim st.voucherCodeField ≠ "") :
    BookPitch.checkVoucher p =
      BookPitch.PitchResult.alerted BookPitch.ALERT_SELECT_DATE ∧
    (BookingCreate.checkVoucher st f).requestIssued = true := by
  constructor
  · simp [BookPitch.checkVoucher, hp, hd]
  · cases f with
    | httpError status => simp [BookingCreate.checkVoucher, hc]
    | success data =>
      by_cases hv : data.valid <;> simp [BookingCreate.checkVoucher, hc, hv]

/-- C1 witness: concrete inputs satisfying the hypotheses of
C1_date_guard, with its conclusion instantiated there. -/
theorem C1_witness :
    BookPitch.readVoucherCode { voucherField := some " ABC ", hiddenDate := none } ≠ "" ∧
    BookPitch.readBookingDate { voucherField := some " ABC ", hiddenDate := none } = "" ∧
    jsTrim "SALE" ≠ "" ∧
    (BookPitch.checkVoucher { voucherField := some " ABC ", hiddenDate := none } =
        BookPitch.PitchResult.alerted BookPitch.ALERT_SELECT_DATE ∧
      (BookingCreate.checkVoucher
          { voucherCodeField := "SALE", bookingDateField := "", voucherMessage := "",
            currentDiscountPercent := none, slots := [] }
          (BookingCreate.FetchOutcome.httpError 404)).requestIssued = true) :=
  ⟨by decide, by decide, by decide,
    C1_date_guard
      { voucherField := some " ABC ", hiddenDate := none }
      { voucherCodeField := "SALE", bookingDateField := "", voucherMessage := "",
        currentDiscountPercent := none, slots := [] }
      (BookingCreate.FetchOutcome.httpError 404)
      (by decide) (by decide) (by decide)⟩

/-- C2: with an empty or whitespace-only code, both variants of
checkVoucher show the localized enter-a-code prompt and stop: the
booking_create.js variant issues no request, emits no log and leaves the
discount state and all slot cards untouched (the full result record says
exactly that), and the book_pitch.js variant alerts without navigating,
regardless of the date state, which neither hypothesis constrains. -/
theorem C2_empty_code (st : BookingCreate.BookingState) (f : BookingCreate.FetchOutcome)
    (p : BookPitch.PitchState)
    (hc : jsTrim st.voucherCodeField = "")
    (hp : BookPitch.readVoucherCode p = "") :
    BookingCreate.checkVoucher st f =
      { state := { st with voucherMessage := BookingCreate.MSG_ENTER_VOUCHER }
        requestIssued := false
        log := none } ∧
    BookPitch.checkVoucher p =
      BookPitch.PitchResult.alerted BookPitch.ALERT_ENTER_VOUCHER := by
  constructor
  · simp [BookingCreate.checkVoucher, hc]
  · simp [BookPitch.checkVoucher, hp]

/-- C2 witness: a whitespace-only code on each page, with a selected date
present and a would-be valid response waiting, still yields only the
enter-a-code prompt and no request. -/
theorem C2_witness :
    jsTrim "   " = "" ∧
    BookPitch.readVoucherCode { voucherField := some "  ", hiddenDate := some "2026-01-01" } = "" ∧
    (BookingCreate.checkVoucher
        { voucherCodeField := "   ", bookingDateField := "2026-01-01",
          voucherMessage := "", currentDiscountPercent := some 10,
          slots := [{ slotPrice := 100000, slotDiscountedPrice := some 90000,
                      hasPriceTag := true,
                      priceTag := BookingCreate.PriceTagHTML.discounted 100000 90000 }] }
        (BookingCreate.FetchOutcome.success
          { valid := true, discount_percent := some 20, message := none }) =
      { state :=
          { voucherCodeField := "   ", bookingDateField := "2026-01-01",
            voucherMessage := BookingCreate.MSG_ENTER_VOUCHER,
            currentDiscountPercent := some 10,
            slots := [{ slotPrice := 100000, slotDiscountedPrice := some 90000,
                        hasPriceTag := true,
                        priceTag := BookingCreate.PriceTagHTML.discounted 100000 90000 }] }
        requestIssued := false
        log := none } ∧
      BookPitch.checkVoucher { voucherField := some "  ", hiddenDate := some "2026-01-01" } =
        BookPitch.PitchResult.alerted BookPitch.ALERT_ENTER_VOUCHER) :=
  ⟨by decide, by decide,
    C2_empty_code
      { voucherCodeField := "   ", bookingDateField := "2026-01-01",
        voucherMessage := "", currentDiscountPercent := some 10,
        slots := [{ slotPrice := 100000, slotDiscountedPrice := some 90000,
                    hasPriceTag := true,
                    priceTag := BookingCreate.PriceTagHTML.discounted 100000 90000 }] }
      (BookingCreate.FetchOutcome.success
        { valid := true, discount_percent := some 20, message := none })
      { voucherField := some "  ", hiddenDate := some "2026-01-01" }
      (by decide) (by decide)⟩

/-- C3 counterexample: the response valid true with discount_percent 0 is
a successful valid response, yet applyDiscountToSlots treats the percent 0
as falsy: the slot keeps no stored discounted price and is rendered as
base price only, with no struck-through original, although the claim
demands the discounted rendering for every percent p of a valid response.
The discount state is still set to 0, showing the response was processed. -/
theorem C3_counterexample :
    (BookingCreate.checkVoucher
        { voucherCodeField := "ZERO", bookingDateField := "2026-01-01", voucherMessage := "",
          currentDiscountPercent := none,
          slots := [{ slotPrice := 100000, slotDiscountedPrice := none,
                      hasPriceTag := true,
                      priceTag := BookingCreate.PriceTagHTML.baseOnly 100000 }] }
        (BookingCreate.FetchOutcome.success
          { valid := true, discount_percent := some 0, message := none })).state.currentDiscountPercent =
      some 0 ∧
    (BookingCreate.checkVoucher
        { voucherCodeField := "ZERO", bookingDateField := "2026-01-01", voucherMessage := "",
          currentDiscountPercent := none,
          slots := [{ slotPrice := 100000, slotDiscountedPrice := none,
                      hasPriceTag := true,
                      priceTag := BookingCreate.PriceTagHTML.baseOnly 100000 }] }
        (BookingCreate.FetchOutcome.success
          { valid := true, discount_percent := some 0, message := none })).state.slots =
      [{ slotPrice := 100000, slotDiscountedPrice := none,
         hasPriceTag := true,
         priceTag := BookingCreate.PriceTagHTML.baseOnly 100000 }] ∧
    BookingCreate.PriceTagHTML.baseOnly 100000 ≠
      BookingCreate.PriceTagHTML.discounted 100000 (BookingCreate.discountedPrice 100000 0) := by
  refine ⟨by decide, by decide, by decide⟩

/-- C3 (amended): for a successful response valid true with a nonzero
discount_percent p, checkVoucher sets the discount state to p, shows the
localized valid message including p, and re-renders every slot card (all
carrying price tags) with the struck-through original price and the
discounted price round(basePrice * (100 - p) / 100); in particular the
discounted price for p = 20 on base price 100000 is 80000.  A percent of
0 is instead rendered as base price only. -/
theorem C3_valid_voucher (st : BookingCreate.BookingState) (p : Nat) (msg : Option String)
    (hc : jsTrim st.voucherCodeField ≠ "") (hp : p ≠ 0)
    (htags : ∀ s ∈ st.slots, s.hasPriceTag = true) :
    BookingCreate.checkVoucher st
        (BookingCreate.FetchOutcome.success
          { valid := true, discount_percent := some p, message := msg }) =
      { state :=
          { st with
            currentDiscountPercent := some p
            voucherMessage :=
              BookingCreate.MSG_VOUCHER_VALID ++ " (Giảm " ++ toString p ++ "%)"
            slots := st.slots.map fun s =>
              { s with
                slotDiscountedPrice := some (BookingCreate.discountedPrice s.slotPrice p)
                priceTag := BookingCreate.PriceTagHTML.discounted s.slotPrice
                  (BookingCreate.discountedPrice s.slotPrice p) } }
        requestIssued := true
        log := none } ∧
    BookingCreate.discountedPrice 100000 20 = 80000 := by
  refine ⟨?_, by decide⟩
  have hslots := BookingCreate.applyDiscountToSlots_truthy p hp st.slots htags
  simp [BookingCreate.checkVoucher, hc, BookingCreate.validMessage, hslots]

/-- C3 witness: the spec scenario p equal 20 on base price 100000 renders
the struck-through 100000 with discounted 80000 and sets the state to 20. -/
theorem C3_witness :
    BookingCreate.checkVoucher
        { voucherCodeField := "SALE20", bookingDateField := "2026-01-01", voucherMessage := "",
          currentDiscountPercent := none,
          slots := [{ slotPrice := 100000, slotDiscountedPrice := none,
                      hasPriceTag := true,
                      priceTag := BookingCreate.PriceTagHTML.baseOnly 100000 }] }
        (BookingCreate.FetchOutcome.success
          { valid := true, discount_percent := some 20, message := none }) =
      { state :=
          { voucherCodeField := "SALE20", bookingDateField := "2026-01-01",
            voucherMessage := BookingCreate.MSG_VOUCHER_VALID ++ " (Giảm 20%)",
            currentDiscountPercent := some 20,
            slots := [{ slotPrice := 100000, slotDiscountedPrice := some 80000,
                        hasPriceTag := true,
                        priceTag := BookingCreate.PriceTagHTML.discounted 100000 80000 }] }
        requestIssued := true
        log := none } := by
  have h := C3_valid_voucher
    { voucherCodeField := "SALE20", bookingDateField := "2026-01-01", voucherMessage := "",
      currentDiscountPercent := none,
      slots := [{ slotPrice := 100000, slotDiscountedPrice := none,
                  hasPriceTag := true,
                  priceTag := BookingCreate.PriceTagHTML.baseOnly 100000 }] }
    20 none (by decide) (by decide) (by decide)
  rw [h.1]
  decide

/-- C4 counterexample: for the response valid false with the message field
present but equal to the empty string, the code shows the generic invalid
message rather than the server-provided message exactly, because the
JavaScript or-operator treats the empty string as falsy. -/
theorem C4_counterexample :
    (BookingCreate.checkVoucher
        { voucherCodeField := "ABC", bookingDateField := "", voucherMessage := "",
          currentDiscountPercent := none, slots := [] }
        (BookingCreate.FetchOutcome.success
          { valid := false, discount_percent := none, message := some "" })).state.voucherMessage =
      BookingCreate.MSG_VOUCHER_INVALID ∧
    BookingCreate.MSG_VOUCHER_INVALID ≠ "" := by
  refine ⟨by decide, by decide⟩

/-- C4 (amended): for a successful response valid false, checkVoucher
clears the discount state, reverts every slot card (all carrying price
tags) to base-price-only rendering, and shows the server-provided message
exactly when it is present and non-empty; a missing or empty message
yields the generic localized invalid-voucher message. -/
theorem C4_invalid_voucher (st : BookingCreate.BookingState) (d : Option Nat)
    (msg : Option String)
    (hc : jsTrim st.voucherCodeField ≠ "")
    (htags : ∀ s ∈ st.slots, s.hasPriceTag = true) :
    BookingCreate.checkVoucher st
        (BookingCreate.FetchOutcome.success
          { valid := false, discount_percent := d, message := msg }) =
      { state :=
          { st with
            currentDiscountPercent := none
            voucherMessage := BookingCreate.invalidMessage msg
            slots := st.slots.map fun s =>
              { s with
                slotDiscountedPrice := none
                priceTag := BookingCreate.PriceTagHTML.baseOnly s.slotPrice } }
        requestIssued := true
        log := none } ∧
    (∀ m, msg = some m → m ≠ "" → BookingCreate.invalidMessage msg = m) ∧
    (msg = none → BookingCreate.invalidMessage msg = BookingCreate.MSG_VOUCHER_INVALID) ∧
    (msg = some "" → BookingCreate.invalidMessage msg = BookingCreate.MSG_VOUCHER_INVALID) := by
  refine ⟨?_, ?_, ?_, ?_⟩
  · have hslots := BookingCreate.applyDiscountToSlots_falsy none rfl st.slots htags
    simp [BookingCreate.checkVoucher, hc, hslots]
  · rintro m rfl hm
    simp [BookingCreate.invalidMessage, hm]
  · rintro rfl
    rfl
  · rintro rfl
    decide

/-- C4 witness: the spec scenario of an expired voucher: the message
region shows Expired exactly, the previously discounted slot reverts to
base-price-only rendering and the discount state becomes absent. -/
theorem C4_witness :
    BookingCreate.checkVoucher
        { voucherCodeField := "ABC", bookingDateField := "2026-01-01", voucherMessage := "",
          currentDiscountPercent := some 20,
          slots := [{ slotPrice := 100000, slotDiscountedPrice := some 80000,
                      hasPriceTag := true,
                      priceTag := BookingCreate.PriceTagHTML.discounted 100000 80000 }] }
        (BookingCreate.FetchOutcome.success
          { valid := false, discount_percent := none, message := some "Expired" }) =
      { state :=
          { voucherCodeField := "ABC", bookingDateField := "2026-01-01",
            voucherMessage := "Expired", currentDiscountPercent := none,
            slots := [{ slotPrice := 100000, slotDiscountedPrice := none,
                        hasPriceTag := true,
                        priceTag := BookingCreate.PriceTagHTML.baseOnly 100000 }] }
        requestIssued := true
        log := none } := by
  have h := C4_invalid_voucher
    { voucherCodeField := "ABC", bookingDateField := "2026-01-01", voucherMessage := "",
      currentDiscountPercent := some 20,
      slots := [{ slotPrice := 100000, slotDiscountedPrice := some 80000,
                  hasPriceTag := true,
                  priceTag := BookingCreate.PriceTagHTML.discounted 100000 80000 }] }
    none (some "Expired") (by decide) (by decide)
  rw [h.1]
  decide

/-- C5: on a non-ok response with the given numeric status, checkVoucher
shows the generic localized error message, emits exactly one structured
log record whose context field holds that status, reverts every slot card
(all carrying price tags) to base-price-only rendering, and leaves the
discount state at its prior value, stated both by the full result record,
which keeps currentDiscountPercent from the input state, and by the
explicit last conjunct. -/
theorem C5_transport_failure (st : BookingCreate.BookingState) (status : Nat)
    (hc : jsTrim st.voucherCodeField ≠ "")
    (htags : ∀ s ∈ st.slots, s.hasPriceTag = true) :
    BookingCreate.checkVoucher st (BookingCreate.FetchOutcome.httpError status) =
      { state :=
          { st with
            voucherMessage := BookingCreate.MSG_VOUCHER_ERROR
            slots := st.slots.map fun s =>
              { s with
                slotDiscountedPrice := none
                priceTag := BookingCreate.PriceTagHTML.baseOnly s.slotPrice } }
        requestIssued := true
        log := some
          { level := "error", type := "VoucherCheckError",
            message := "Voucher HTTP error", context := some status } } ∧
    (BookingCreate.checkVoucher st
        (BookingCreate.FetchOutcome.httpError status)).state.currentDiscountPercent =
      st.currentDiscountPercent := by
  have hslots := BookingCreate.applyDiscountToSlots_falsy none rfl st.slots htags
  constructor
  · simp [BookingCreate.checkVoucher, hc, hslots]
  · simp [BookingCreate.checkVoucher, hc]

/-- C5 witness: a 503 response keeps the prior 15 percent discount state
untouched while the rendered prices revert and the log record carries the
status 503. -/
theorem C5_witness :
    BookingCreate.checkVoucher
        { voucherCodeField := "ABC", bookingDateField := "2026-01-01", voucherMessage := "",
          currentDiscountPercent := some 15,
          slots := [{ slotPrice := 100000, slotDiscountedPrice := some 85000,
                      hasPriceTag := true,
                      priceTag := BookingCreate.PriceTagHTML.discounted 100000 85000 }] }
        (BookingCreate.FetchOutcome.httpError 503) =
      { state :=
          { voucherCodeField := "ABC", bookingDateField := "2026-01-01",
            voucherMessage := BookingCreate.MSG_VOUCHER_ERROR,
            currentDiscountPercent := some 15,
            slots := [{ slotPrice := 100000, slotDiscountedPrice := none,
                        hasPriceTag := true,
                        priceTag := BookingCreate.PriceTagHTML.baseOnly 100000 }] }
        requestIssued := true
        log := some
          { level := "error", type := "VoucherCheckError",
            message := "Voucher HTTP error", context := some 503 } } := by
  have h := C5_transport_failure
    { voucherCodeField := "ABC", bookingDateField := "2026-01-01", voucherMessage := "",
      currentDiscountPercent := some 15,
      slots := [{ slotPrice := 100000, slotDiscountedPrice := some 85000,
                  hasPriceTag := true,
                  priceTag := BookingCreate.PriceTagHTML.discounted 100000 85000 }] }
    503 (by decide) (by decide)
  rw [h.1]
  decide

/-- C6: the discounted price computed at line 52 of booking_create.js is
the round-half-up of basePrice * (100 - p) / 100 as an exact rational, for
every base price and percent in the documented 0-100 domain; at the spec
boundary case, base price 100001 with discount 33 gives 67001, the
correctly rounded value, while truncating the same quotient would give
67000. -/
theorem C6_round_half_up :
    (∀ base p : Nat, p ≤ 100 →
      (BookingCreate.discountedPrice base p : ℤ) =
        roundHalfUp ((base : ℚ) * ((100 : ℚ) - (p : ℚ)) / 100)) ∧
    BookingCreate.discountedPrice 100001 33 = 67001 ∧
    100001 * (100 - 33) / 100 = 67000 := by
  refine ⟨?_, by decide, by decide⟩
  intro base p hp
  have h2 : (base : ℚ) * ((100 : ℚ) - (p : ℚ)) / 100 + 1 / 2
      = (((base * (100 - p) + 50 : ℕ) : ℤ) : ℚ) / ((100 : ℕ) : ℚ) := by
    push_cast [Nat.cast_sub hp]
    ring
  rw [roundHalfUp, h2, Rat.floor_intCast_div_natCast]
  unfold BookingCreate.discountedPrice
  omega

/-- C6 witness: the rounding identity instantiated at the boundary case of
the spec, base price 100001 with discount percent 33. -/
theorem C6_witness :
    (33 : Nat) ≤ 100 ∧
    (BookingCreate.discountedPrice 100001 33 : ℤ) =
      roundHalfUp (((100001 : ℕ) : ℚ) * ((100 : ℚ) - ((33 : ℕ) : ℚ)) / 100) :=
  ⟨by decide, C6_round_half_up.1 100001 33 (by decide)⟩

/-- C7: applyDiscountToSlots is idempotent for every discount argument,
present or absent: the second call recomputes each card from its base
price, which the first call never changed, so the stored discounted prices
and the rendered price tags after two calls equal those after one call,
with no compounding of the discount. -/
theorem C7_idempotent (d : Option Nat) (slots : List BookingCreate.Slot) :
    BookingCreate.applyDiscountToSlots d (BookingCreate.applyDiscountToSlots d slots) =
      BookingCreate.applyDiscountToSlots d slots := by
  unfold BookingCreate.applyDiscountToSlots
  rw [List.map_map]
  apply List.map_congr_left
  intro s _
  simp only [Function.comp_apply]
  exact BookingCreate.applyDiscountToSlot_idem d s

/-- C8: after every completed voucher check (non-empty code, so a request
was made, over slot cards that all carry price tags) there is a single
discount argument d such that the resulting cards are exactly one full
recomputation of the input cards under d; that recomputation gives the
same result for any card collection agreeing on base prices and tag
presence, so no card retains stored discount data from an earlier check;
and every stored discounted price in the result comes from that single d,
so at most one discount percent is active across all slots. -/
theorem C8_single_discount (st : BookingCreate.BookingState) (f : BookingCreate.FetchOutcome)
    (hc : jsTrim st.voucherCodeField ≠ "")
    (htags : ∀ s ∈ st.slots, s.hasPriceTag = true) :
    ∃ d : Option Nat,
      (BookingCreate.checkVoucher st f).state.slots =
        BookingCreate.applyDiscountToSlots d st.slots ∧
      (∀ slots2 : List BookingCreate.Slot,
        slots2.map (fun s => (s.slotPrice, s.hasPriceTag)) =
          st.slots.map (fun s => (s.slotPrice, s.hasPriceTag)) →
        BookingCreate.applyDiscountToSlots d slots2 =
          BookingCreate.applyDiscountToSlots d st.slots) ∧
      (∀ s ∈ (BookingCreate.checkVoucher st f).state.slots,
        s.slotDiscountedPrice = none ∨
          ∃ p, d = some p ∧
            s.slotDiscountedPrice = some (BookingCreate.discountedPrice s.slotPrice p)) := by
  have hmain : ∃ d : Option Nat,
      (BookingCreate.checkVoucher st f).state.slots =
        BookingCreate.applyDiscountToSlots d st.slots := by
    cases f with
    | httpError status => exact ⟨none, by simp [BookingCreate.checkVoucher, hc]⟩
    | success data =>
      by_cases hv : data.valid
      · exact ⟨data.discount_percent, by simp [BookingCreate.checkVoucher, hc, hv]⟩
      · exact ⟨none, by simp [BookingCreate.checkVoucher, hc, hv]⟩
  obtain ⟨d, hd⟩ := hmain
  refine ⟨d, hd, ?_, ?_⟩
  · intro slots2 hproj
    exact BookingCreate.applyDiscountToSlots_proj d slots2 st.slots hproj htags
  · intro s hs
    rw [hd] at hs
    exact BookingCreate.applyDiscountToSlots_discountMem d st.slots htags s hs

/-- C8 witness: the supersession property instantiated on a card that
still carries a stale 90000 discount annotation from an earlier check,
with a valid 20 percent response. -/
theorem C8_witness :
    ∃ d : Option Nat,
      (BookingCreate.checkVoucher
          { voucherCodeField := "ABC", bookingDateField := "2026-01-01", voucherMessage := "",
            currentDiscountPercent := none,
            slots := [{ slotPrice := 100000, slotDiscountedPrice := some 90000,
                        hasPriceTag := true,
                        priceTag := BookingCreate.PriceTagHTML.discounted 100000 90000 }] }
          (BookingCreate.FetchOutcome.success
            { valid := true, discount_percent := some 20, message := none })).state.slots =
        BookingCreate.applyDiscountToSlots d
          [{ slotPrice := 100000, slotDiscountedPrice := some 90000,
             hasPriceTag := true,
             priceTag := BookingCreate.PriceTagHTML.discounted 100000 90000 }] ∧
      (∀ slots2 : List BookingCreate.Slot,
        slots2.map (fun s => (s.slotPrice, s.hasPriceTag)) =
          [({ slotPrice := 100000, slotDiscountedPrice := some 90000,
              hasPriceTag := true,
              priceTag := BookingCreate.PriceTagHTML.discounted 100000 90000 } :
            BookingCreate.Slot)].map (fun s => (s.slotPrice, s.hasPriceTag)) →
        BookingCreate.applyDiscountToSlots d slots2 =
          BookingCreate.applyDiscountToSlots d
            [{ slotPrice := 100000, slotDiscountedPrice := some 90000,
               hasPriceTag := true,
               priceTag := BookingCreate.PriceTagHTML.discounted 100000 90000 }]) ∧
      (∀ s ∈ (BookingCreate.checkVoucher
          { voucherCodeField := "ABC", bookingDateField := "2026-01-01", voucherMessage := "",
            currentDiscountPercent := none,
            slots := [{ slotPrice := 100000, slotDiscountedPrice := some 90000,
                        hasPriceTag := true,
                        priceTag := BookingCreate.PriceTagHTML.discounted 100000 90000 }] }
          (BookingCreate.FetchOutcome.success
            { valid := true, discount_percent := some 20, message := none })).state.slots,
        s.slotDiscountedPrice = none ∨
          ∃ p, d = some p ∧
            s.slotDiscountedPrice = some (BookingCreate.discountedPrice s.slotPrice p)) :=
  C8_single_discount
    { voucherCodeField := "ABC", bookingDateField := "2026-01-01", voucherMessage := "",
      currentDiscountPercent := none,
      slots := [{ slotPrice := 100000, slotDiscountedPrice := some 90000,
                  hasPriceTag := true,
                  priceTag := BookingCreate.PriceTagHTML.discounted 100000 90000 }] }
    (BookingCreate.FetchOutcome.success
      { valid := true, discount_percent := some 20, message := none })
    (by decide) (by decide)

/-- C9 counterexample: the percent 0 lies in the documented 0-100 domain
and is supplied, yet applyDiscountToSlots removes the stored discounted
price and renders the base price alone, exactly the behaviour the claim
reserves for an absent argument, because 0 is falsy in JavaScript. -/
theorem C9_counterexample :
    BookingCreate.applyDiscountToSlots (some 0)
      [{ slotPrice := 100000, slotDiscountedPrice := some 80000,
         hasPriceTag := true,
         priceTag := BookingCreate.PriceTagHTML.discounted 100000 80000 }] =
      [{ slotPrice := 100000, slotDiscountedPrice := none,
         hasPriceTag := true,
         priceTag := BookingCreate.PriceTagHTML.baseOnly 100000 }] ∧
    (0 : Nat) ≤ 100 := by
  refine ⟨by decide, by decide⟩

/-- C9 (amended): for every supplied percent in 1-100, applyDiscountToSlots
stores the computed discounted price on each card carrying a price tag and
renders the struck-through original next to the discounted price; an
absent argument removes the stored discounted price and renders the base
price alone; and a supplied percent of 0 behaves exactly like the absent
argument rather than storing a zero-percent discount. -/
theorem C9_store_and_render (p : Nat) (slots : List BookingCreate.Slot)
    (hp1 : 1 ≤ p) (hp2 : p ≤ 100)
    (htags : ∀ s ∈ slots, s.hasPriceTag = true) :
    BookingCreate.applyDiscountToSlots (some p) slots =
      slots.map (fun s =>
        { s with
          slotDiscountedPrice := some (BookingCreate.discountedPrice s.slotPrice p)
          priceTag := BookingCreate.PriceTagHTML.discounted s.slotPrice
            (BookingCreate.discountedPrice s.slotPrice p) }) ∧
    BookingCreate.applyDiscountToSlots none slots =
      slots.map (fun s =>
        { s with
          slotDiscountedPrice := none
          priceTag := BookingCreate.PriceTagHTML.baseOnly s.slotPrice }) ∧
    BookingCreate.applyDiscountToSlots (some 0) slots =
      BookingCreate.applyDiscountToSlots none slots := by
  refine ⟨?_, ?_, ?_⟩
  · exact BookingCreate.applyDiscountToSlots_truthy p (by omega) slots htags
  · exact BookingCreate.applyDiscountToSlots_falsy none rfl slots htags
  · rw [BookingCreate.applyDiscountToSlots_falsy (some 0) rfl slots htags,
      BookingCreate.applyDiscountToSlots_falsy none rfl slots htags]

/-- C9 witness: the rendering rules instantiated at percent 20 on a single
card with base price 100000. -/
theorem C9_witness :
    (1 : Nat) ≤ 20 ∧ (20 : Nat) ≤ 100 ∧
    (BookingCreate.applyDiscountToSlots (some 20)
        [{ slotPrice := 100000, slotDiscountedPrice := none,
           hasPriceTag := true,
           priceTag := BookingCreate.PriceTagHTML.baseOnly 100000 }] =
      [({ slotPrice := 100000, slotDiscountedPrice := none,
          hasPriceTag := true,
          priceTag := BookingCreate.PriceTagHTML.baseOnly 100000 } :
        BookingCreate.Slot)].map (fun s =>
        { s with
          slotDiscountedPrice := some (BookingCreate.discountedPrice s.slotPrice 20)
          priceTag := BookingCreate.PriceTagHTML.discounted s.slotPrice
            (BookingCreate.discountedPrice s.slotPrice 20) }) ∧
    BookingCreate.applyDiscountToSlots none
        [{ slotPrice := 100000, slotDiscountedPrice := none,
           hasPriceTag := true,
           priceTag := BookingCreate.PriceTagHTML.baseOnly 100000 }] =
      [({ slotPrice := 100000, slotDiscountedPrice := none,
          hasPriceTag := true,
          priceTag := BookingCreate.PriceTagHTML.baseOnly 100000 } :
        BookingCreate.Slot)].map (fun s =>
        { s with
          slotDiscountedPrice := none
          priceTag := BookingCreate.PriceTagHTML.baseOnly s.slotPrice }) ∧
    BookingCreate.applyDiscountToSlots (some 0)
        [{ slotPrice := 100000, slotDiscountedPrice := none,
           hasPriceTag := true,
           priceTag := BookingCreate.PriceTagHTML.baseOnly 100000 }] =
      BookingCreate.applyDiscountToSlots none
        [{ slotPrice := 100000, slotDiscountedPrice := none,
           hasPriceTag := true,
           priceTag := BookingCreate.PriceTagHTML.baseOnly 100000 }]) :=
  ⟨by decide, by decide,
    C9_store_and_render 20
      [{ slotPrice := 100000, slotDiscountedPrice := none,
         hasPriceTag := true,
         priceTag := BookingCreate.PriceTagHTML.baseOnly 100000 }]
      (by decide) (by decide) (by decide)⟩

/-- C10: invoking selectTimeSlot with a null card, or with a card whose
data-available attribute is not the string true, changes nothing: the
whole selection state, comprising the selected classes of all cards, the
hidden selected-time-slot field and the disabled flag of the submit
button, is returned unchanged. -/
theorem C10_unavailable_noop (st : BookingCreate.SlotSelectionState)
    (card : Option (Fin st.cards.length))
    (h : card = none ∨ ∀ i, card = some i → (st.cards.get i).available ≠ "true") :
    BookingCreate.selectTimeSlot st card = st := by
  cases card with
  | none => rfl
  | some i =>
    have hi : (st.cards.get i).available ≠ "true" := by
      rcases h with h | h
      · simp at h
      · exact h i rfl
    simp only [BookingCreate.selectTimeSlot]
    rw [if_pos hi]

/-- C10 witness: clicking the single unavailable card of a page leaves the
page state, including the disabled submit button, exactly as it was. -/
theorem C10_witness :
    BookingCreate.selectTimeSlot
        { cards := [{ available := "false", slotId := "s1", selectedClass := false }],
          selectedTimeSlotValue := "", submitDisabled := some true }
        (some ⟨0, by decide⟩) =
      { cards := [{ available := "false", slotId := "s1", selectedClass := false }],
        selectedTimeSlotValue := "", submitDisabled := some true } :=
  C10_unavailable_noop
    { cards := [{ available := "false", slotId := "s1", selectedClass := false }],
      selectedTimeSlotValue := "", submitDisabled := some true }
    (some ⟨0, by decide⟩) (by decide)
